import Mathlib

/-!
Verification of the worker-side scheduling and dispatch core of the celery
snippet: the task publisher (`celery/messaging.py`), the background worker
loop (`BackgroundProcess`), the mediator (`Mediator`) and the delayed-task
controller (`PeriodicWorkController`) of `celery/worker/controllers.py`.

Queues (`multiprocessing.Queue`) are modelled as Lean lists used FIFO:
`get`/`get_nowait` pops the head, `put` appends at the back. Wall-clock time
(`datetime.now()`) is a natural number passed explicitly; the controller's
`time.sleep(1)` advances it by one unit per iteration.
-/

namespace Celery

/-- The part of a task message the worker-side controllers look at
(`task.task_name`, `task.task_id` in the logging calls). -/
structure Task where
  task_name : String
  task_id : String
deriving DecidableEq, Repr

/-- The shared queue state of the worker: the bucket (ready) queue of tasks
eligible for execution, and the hold queue of `(task, eta)` pairs. -/
structure WState where
  bucket_queue : List Task
  hold_queue : List (Task × Nat)
deriving DecidableEq, Repr

/-- `PeriodicWorkController.process_hold_queue` (controllers.py:111-131):
one `get_nowait` on the hold queue; on `QueueEmpty` return; otherwise
compare `datetime.now() >= eta`: if so `bucket_queue.put(task)`, else
`hold_queue.put((task, eta))`. -/
def process_hold_queue (now : Nat) (s : WState) : WState :=
  match s.hold_queue with
  | [] => s
  | (task, eta) :: rest =>
    if eta ≤ now then
      { bucket_queue := s.bucket_queue ++ [task], hold_queue := rest }
    else
      { bucket_queue := s.bucket_queue, hold_queue := rest ++ [(task, eta)] }

/-- `n` iterations of `PeriodicWorkController.on_iteration` as they affect the
two queues: each iteration runs `process_hold_queue` at the current time and
then `time.sleep(1)` advances the clock by one pacing unit
(`run_periodic_tasks` only calls the external backend and touches neither
queue). -/
def controller_run (n : Nat) (now : Nat) (s : WState) : WState :=
  match n with
  | 0 => s
  | Nat.succ k => controller_run k (now + 1) (process_hold_queue now s)

/-- `Mediator.on_iteration` (controllers.py:68-80): a bounded blocking
`bucket_queue.get(timeout=1)`; on `QueueEmpty` pass, else `callback(task)`.
Result: the bucket queue afterwards, and the list of arguments the callback
was invoked with during the iteration (in order). -/
def mediator_on_iteration (q : List Task) : List Task × List Task :=
  match q with
  | [] => (q, [])
  | t :: rest => (rest, [t])

/-- Claim C1: each hold-queue step makes one non-blocking pop attempt; an
empty hold queue is a no-op; a popped `(task, eta)` with `now ≥ eta` pushes
`task` onto the bucket queue and drops the pair; with `now < eta` the same
pair is pushed back onto the hold queue unchanged. -/
theorem process_hold_queue_step_spec (now : Nat) (s : WState) :
    (s.hold_queue = [] → process_hold_queue now s = s) ∧
    (∀ task eta rest, s.hold_queue = (task, eta) :: rest →
      (eta ≤ now → process_hold_queue now s =
        { bucket_queue := s.bucket_queue ++ [task], hold_queue := rest }) ∧
      (now < eta → process_hold_queue now s =
        { bucket_queue := s.bucket_queue,
          hold_queue := rest ++ [(task, eta)] })) := by
  constructor
  · intro h
    simp [process_hold_queue, h]
  · intro task eta rest hq
    constructor
    · intro hle
      simp [process_hold_queue, hq, hle]
    · intro hlt
      simp [process_hold_queue, hq, Nat.not_le.mpr hlt]

/-- Witness for C1: both eligible and not-yet-eligible concrete cases, plus
the empty no-op case. -/
theorem process_hold_queue_step_spec_witness :
    process_hold_queue 5 ⟨[], [(⟨"a", "1"⟩, 3)]⟩ = ⟨[⟨"a", "1"⟩], []⟩ ∧
    process_hold_queue 5 ⟨[], [(⟨"a", "1"⟩, 9)]⟩ = ⟨[], [(⟨"a", "1"⟩, 9)]⟩ ∧
    process_hold_queue 5 ⟨[⟨"b", "2"⟩], []⟩ = ⟨[⟨"b", "2"⟩], []⟩ := by
  refine ⟨?_, ?_, ?_⟩
  · exact ((process_hold_queue_step_spec 5 ⟨[], [(⟨"a", "1"⟩, 3)]⟩).2
      ⟨"a", "1"⟩ 3 [] rfl).1 (by decide)
  · exact ((process_hold_queue_step_spec 5 ⟨[], [(⟨"a", "1"⟩, 9)]⟩).2
      ⟨"a", "1"⟩ 9 [] rfl).2 (by decide)
  · exact (process_hold_queue_step_spec 5 ⟨[⟨"b", "2"⟩], []⟩).1 rfl

lemma controller_run_add (a b : Nat) (now : Nat) (s : WState) :
    controller_run (a + b) now s =
      controller_run b (now + a) (controller_run a now s) := by
  induction a generalizing now s with
  | zero => simp [controller_run]
  | succ k ih =>
    have hsum : k + 1 + b = (k + b) + 1 := by omega
    rw [hsum]
    show controller_run (k + b) (now + 1) (process_hold_queue now s) = _
    rw [ih (now + 1) (process_hold_queue now s)]
    have : now + 1 + k = now + (k + 1) := by omega
    rw [this]
    rfl

lemma mem_bucket_process (now : Nat) (s : WState) (t : Task)
    (h : t ∈ s.bucket_queue) : t ∈ (process_hold_queue now s).bucket_queue := by
  cases hq : s.hold_queue with
  | nil => simpa [process_hold_queue, hq] using h
  | cons p rest =>
    obtain ⟨task, eta⟩ := p
    by_cases hle : eta ≤ now <;> simp [process_hold_queue, hq, hle, h]

lemma mem_bucket_run (n : Nat) (now : Nat) (s : WState) (t : Task)
    (h : t ∈ s.bucket_queue) : t ∈ (controller_run n now s).bucket_queue := by
  induction n generalizing now s with
  | zero => exact h
  | succ k ih => exact ih (now + 1) _ (mem_bucket_process now s t h)

lemma mem_bucket_run_le (m n : Nat) (now : Nat) (s : WState) (t : Task)
    (hmn : m ≤ n) (h : t ∈ (controller_run m now s).bucket_queue) :
    t ∈ (controller_run n now s).bucket_queue := by
  have hsplit : n = m + (n - m) := by omega
  rw [hsplit, controller_run_add]
  exact mem_bucket_run _ _ _ _ h

lemma mem_hold_process (now : Nat) (s : WState) (p : Task × Nat)
    (h : p ∈ (process_hold_queue now s).hold_queue) : p ∈ s.hold_queue := by
  cases hq : s.hold_queue with
  | nil => simp [process_hold_queue, hq] at h
  | cons q rest =>
    obtain ⟨task, eta⟩ := q
    by_cases hle : eta ≤ now
    · simp only [process_hold_queue, hq, if_pos hle] at h
      simp [hq, h]
    · simp only [process_hold_queue, hq, if_neg hle] at h
      simp only [List.mem_append, List.mem_singleton] at h
      rcases h with h | h <;> simp [hq, h]

lemma mem_bucket_process_new (now : Nat) (s : WState) (t : Task)
    (h : t ∈ (process_hold_queue now s).bucket_queue) :
    t ∈ s.bucket_queue ∨
      ∃ eta rest, s.hold_queue = (t, eta) :: rest ∧ eta ≤ now := by
  cases hq : s.hold_queue with
  | nil => left; simpa [process_hold_queue, hq] using h
  | cons q rest =>
    obtain ⟨task, eta⟩ := q
    by_cases hle : eta ≤ now
    · simp only [process_hold_queue, hq, if_pos hle] at h
      simp only [List.mem_append, List.mem_singleton] at h
      rcases h with h | h
      · exact Or.inl h
      · subst h
        exact Or.inr ⟨eta, rest, by simp [hq], hle⟩
    · left
      simpa [process_hold_queue, hq, hle] using h

lemma hold_length_process (now : Nat) (s : WState) :
    (process_hold_queue now s).hold_queue.length ≤ s.hold_queue.length := by
  cases hq : s.hold_queue with
  | nil => simp [process_hold_queue, hq]
  | cons q rest =>
    obtain ⟨task, eta⟩ := q
    by_cases hle : eta ≤ now <;> simp [process_hold_queue, hq, hle]

lemma hold_length_run (n : Nat) (now : Nat) (s : WState) :
    (controller_run n now s).hold_queue.length ≤ s.hold_queue.length := by
  induction n generalizing now s with
  | zero => exact le_rfl
  | succ k ih =>
    exact le_trans (ih (now + 1) (process_hold_queue now s))
      (hold_length_process now s)

lemma mem_hold_persist (now : Nat) (s : WState) (t : Task) (eta : Nat)
    (h : (t, eta) ∈ s.hold_queue) (hlt : now < eta) :
    (t, eta) ∈ (process_hold_queue now s).hold_queue := by
  cases hq : s.hold_queue with
  | nil => simp [hq] at h
  | cons q rest =>
    obtain ⟨t0, e0⟩ := q
    rw [hq] at h
    rcases List.mem_cons.mp h with h | h
    · have hne : ¬ eta ≤ now := by omega
      simp [process_hold_queue, hq, hne, h.symm]
    · by_cases hle : e0 ≤ now <;> simp [process_hold_queue, hq, hle, h]

lemma mem_hold_persist_run (j : Nat) (now : Nat) (s : WState) (t : Task)
    (eta : Nat) (h : (t, eta) ∈ s.hold_queue) (hj : now + j ≤ eta) :
    (t, eta) ∈ (controller_run j now s).hold_queue := by
  induction j generalizing now s with
  | zero => exact h
  | succ k ih =>
    exact ih (now + 1) (process_hold_queue now s)
      (mem_hold_persist now s t eta h (by omega)) (by omega)

lemma not_mem_bucket_run_early (j : Nat) (now : Nat) (s : WState) (t : Task)
    (eta : Nat) (hb : t ∉ s.bucket_queue)
    (hu : ∀ p ∈ s.hold_queue, p.1 = t → p.2 = eta)
    (hj : now + j ≤ eta) :
    t ∉ (controller_run j now s).bucket_queue := by
  induction j generalizing now s with
  | zero => exact hb
  | succ k ih =>
    refine ih (now + 1) (process_hold_queue now s) ?_ ?_ (by omega)
    · intro hmem
      rcases mem_bucket_process_new now s t hmem with h | ⟨e, rest, hq, hle⟩
      · exact hb h
      · have : e = eta := hu (t, e) (by rw [hq]; exact List.mem_cons_self _ _) rfl
        omega
    · intro p hp hp1
      exact hu p (mem_hold_process now s p hp) hp1

lemma promoted_by_index (i : Nat) : ∀ (now : Nat) (s : WState) (t : Task)
    (eta : Nat), s.hold_queue[i]? = some (t, eta) → eta ≤ now →
    t ∈ (controller_run (i + 1) now s).bucket_queue := by
  induction i with
  | zero =>
    intro now s t eta hget hle
    cases hq : s.hold_queue with
    | nil => rw [hq] at hget; simp at hget
    | cons q rest =>
      obtain ⟨t0, e0⟩ := q
      rw [hq] at hget
      simp only [List.getElem?_cons_zero, Option.some.injEq,
        Prod.mk.injEq] at hget
      obtain ⟨ht, he⟩ := hget
      subst ht
      subst he
      show t0 ∈ (process_hold_queue now s).bucket_queue
      simp [process_hold_queue, hq, hle]
  | succ k ih =>
    intro now s t eta hget hle
    cases hq : s.hold_queue with
    | nil => rw [hq] at hget; simp at hget
    | cons q rest =>
      obtain ⟨t0, e0⟩ := q
      rw [hq] at hget
      simp only [List.getElem?_cons_succ] at hget
      have hlen : k < rest.length := (List.getElem?_eq_some.mp hget).1
      show t ∈ (controller_run (k + 1) (now + 1)
        (process_hold_queue now s)).bucket_queue
      by_cases h0 : e0 ≤ now
      · refine ih (now + 1) _ t eta ?_ (by omega)
        simpa [process_hold_queue, hq, h0] using hget
      · refine ih (now + 1) _ t eta ?_ (by omega)
        simp only [process_hold_queue, hq, if_neg h0]
        rw [List.getElem?_append_left hlen]
        exact hget

/-- Claim C3: a task whose eta is in the future when its entry sits in the
hold queue is never promoted to the bucket queue while `now < eta`, and is in
the bucket queue after at most `(eta - now) + hold_queue.length` controller
iterations, i.e. by wall-clock time `eta + hold_queue_size × pacing`. -/
theorem controller_promotes_within_bound (s : WState) (now0 : Nat) (t : Task)
    (eta : Nat) (hmem : (t, eta) ∈ s.hold_queue)
    (hu : ∀ p ∈ s.hold_queue, p.1 = t → p.2 = eta)
    (hfut : now0 < eta) (hb : t ∉ s.bucket_queue) :
    (∀ j, now0 + j ≤ eta → t ∉ (controller_run j now0 s).bucket_queue) ∧
    t ∈ (controller_run ((eta - now0) + s.hold_queue.length)
      now0 s).bucket_queue := by
  constructor
  · intro j hj
    exact not_mem_bucket_run_early j now0 s t eta hb hu hj
  · set j0 := eta - now0 with hj0
    set N := s.hold_queue.length with hN
    have hnow : now0 + j0 = eta := by omega
    set s1 := controller_run j0 now0 s with hs1
    have hpersist : (t, eta) ∈ s1.hold_queue :=
      mem_hold_persist_run j0 now0 s t eta hmem (by omega)
    obtain ⟨i, hi⟩ := List.getElem?_of_mem hpersist
    have hilen : i < s1.hold_queue.length := (List.getElem?_eq_some.mp hi).1
    have hiN : i + 1 ≤ N := by
      have := hold_length_run j0 now0 s
      rw [← hs1] at this
      omega
    have hprom : t ∈ (controller_run (i + 1) (now0 + j0) s1).bucket_queue := by
      rw [hnow]
      exact promoted_by_index i eta s1 t eta hi le_rfl
    have : t ∈ (controller_run N (now0 + j0) s1).bucket_queue :=
      mem_bucket_run_le (i + 1) N (now0 + j0) s1 t hiN hprom
    rw [controller_run_add j0 N now0 s]
    exact this

/-- Witness for C3: a two-entry hold queue at time 3; the task with eta 5 is
not yet promoted after 2 iterations and is promoted after 2 + 2 iterations. -/
theorem controller_promotes_within_bound_witness :
    (⟨"a", "1"⟩ : Task) ∉
      (controller_run 2 3 ⟨[], [(⟨"a", "1"⟩, 5), (⟨"b", "2"⟩, 9)]⟩).bucket_queue ∧
    (⟨"a", "1"⟩ : Task) ∈
      (controller_run 4 3 ⟨[], [(⟨"a", "1"⟩, 5), (⟨"b", "2"⟩, 9)]⟩).bucket_queue := by
  have h := controller_promotes_within_bound
    ⟨[], [(⟨"a", "1"⟩, 5), (⟨"b", "2"⟩, 9)]⟩ 3 ⟨"a", "1"⟩ 5
    (by decide) (by decide) (by decide) (by decide)
  exact ⟨h.1 2 (by decide), h.2⟩

/-- Claim C2: a mediator iteration on an empty bucket queue has no effect and
invokes the callback with nothing; on a nonempty queue it invokes the
callback exactly once, with the task the queue yielded; it never invokes the
callback more than once per iteration, and every argument it passes came off
the front of the queue. -/
theorem mediator_on_iteration_spec (q : List Task) :
    (q = [] → mediator_on_iteration q = (q, [])) ∧
    (∀ t rest, q = t :: rest → mediator_on_iteration q = (rest, [t])) ∧
    (mediator_on_iteration q).2.length ≤ 1 ∧
    (∀ t, t ∈ (mediator_on_iteration q).2 → ∃ rest, q = t :: rest) := by
  refine ⟨?_, ?_, ?_, ?_⟩
  · intro h; simp [mediator_on_iteration, h]
  · intro t rest h; simp [mediator_on_iteration, h]
  · cases q <;> simp [mediator_on_iteration]
  · intro t ht
    cases q with
    | nil => simp [mediator_on_iteration] at ht
    | cons t0 rest =>
      simp [mediator_on_iteration] at ht
      exact ⟨rest, by rw [ht]⟩

/-- Witness for C2: the empty case and a concrete two-element queue. -/
theorem mediator_on_iteration_spec_witness :
    mediator_on_iteration [] = ([], []) ∧
    mediator_on_iteration [⟨"a", "1"⟩, ⟨"b", "2"⟩] = ([⟨"b", "2"⟩], [⟨"a", "1"⟩]) := by
  refine ⟨?_, ?_⟩
  · exact (mediator_on_iteration_spec []).1 rfl
  · exact (mediator_on_iteration_spec [⟨"a", "1"⟩, ⟨"b", "2"⟩]).2.1
      ⟨"a", "1"⟩ [⟨"b", "2"⟩] rfl

/-- Observable actions of one `PeriodicWorkController.on_iteration`
(controllers.py:99-106): the call into the periodic-task backend, the
hold-queue `get_nowait` with its outcome, the queue `put`s, and the
`time.sleep`. -/
inductive CtrlEvent where
  | runPeriodicTasks : CtrlEvent
  | holdGetNowait : Option (Task × Nat) → CtrlEvent
  | bucketPut : Task → CtrlEvent
  | holdPut : Task × Nat → CtrlEvent
  | sleep : Nat → CtrlEvent
deriving DecidableEq, Repr

/-- `process_hold_queue` instrumented with its queue operations, in program
order (controllers.py:111-131). -/
def process_hold_queue_ev (now : Nat) (s : WState) : WState × List CtrlEvent :=
  match s.hold_queue with
  | [] => (s, [CtrlEvent.holdGetNowait none])
  | (task, eta) :: rest =>
    if eta ≤ now then
      ({ bucket_queue := s.bucket_queue ++ [task], hold_queue := rest },
       [CtrlEvent.holdGetNowait (some (task, eta)), CtrlEvent.bucketPut task])
    else
      ({ bucket_queue := s.bucket_queue, hold_queue := rest ++ [(task, eta)] },
       [CtrlEvent.holdGetNowait (some (task, eta)),
        CtrlEvent.holdPut (task, eta)])

/-- `PeriodicWorkController.on_iteration` (controllers.py:99-106):
`run_periodic_tasks()`, then `process_hold_queue()`, then `time.sleep(1)`,
with the resulting queue state and the event trace in program order. -/
def controller_on_iteration (now : Nat) (s : WState) : WState × List CtrlEvent :=
  let r := process_hold_queue_ev now s
  (r.1, CtrlEvent.runPeriodicTasks :: r.2 ++ [CtrlEvent.sleep 1])

lemma process_hold_queue_ev_fst (now : Nat) (s : WState) :
    (process_hold_queue_ev now s).1 = process_hold_queue now s := by
  cases hq : s.hold_queue with
  | nil => simp [process_hold_queue_ev, process_hold_queue, hq]
  | cons q rest =>
    obtain ⟨task, eta⟩ := q
    by_cases hle : eta ≤ now <;>
      simp [process_hold_queue_ev, process_hold_queue, hq, hle]

/-- Claim C5: every controller iteration triggers the periodic backend first,
then examines exactly one hold-queue entry and routes it (one `get_nowait`,
followed by at most one `put` on exactly one of the two queues), and finally
sleeps for the fixed one-unit pacing interval; its effect on the queues is
exactly that of the single hold-queue step, with no other queue operation. -/
theorem controller_on_iteration_spec (now : Nat) (s : WState) :
    ∃ hqev, controller_on_iteration now s =
      (process_hold_queue now s,
       CtrlEvent.runPeriodicTasks :: hqev ++ [CtrlEvent.sleep 1]) ∧
    ((s.hold_queue = [] ∧ hqev = [CtrlEvent.holdGetNowait none]) ∨
     (∃ task eta rest, s.hold_queue = (task, eta) :: rest ∧
       ((eta ≤ now ∧ hqev = [CtrlEvent.holdGetNowait (some (task, eta)),
            CtrlEvent.bucketPut task]) ∨
        (now < eta ∧ hqev = [CtrlEvent.holdGetNowait (some (task, eta)),
            CtrlEvent.holdPut (task, eta)])))) := by
  refine ⟨(process_hold_queue_ev now s).2, ?_, ?_⟩
  · show (_, _) = (_, _)
    rw [process_hold_queue_ev_fst]
  · cases hq : s.hold_queue with
    | nil => exact Or.inl ⟨rfl, by simp [process_hold_queue_ev, hq]⟩
    | cons q rest =>
      obtain ⟨task, eta⟩ := q
      refine Or.inr ⟨task, eta, rest, rfl, ?_⟩
      by_cases hle : eta ≤ now
      · exact Or.inl ⟨hle, by simp [process_hold_queue_ev, hq, hle]⟩
      · exact Or.inr ⟨by omega, by simp [process_hold_queue_ev, hq, hle]⟩

/-- Transport-level failure raised by the carrot `Publisher.send` boundary
(external to the snippet). -/
structure TransportError where
  msg : String
deriving DecidableEq, Repr

/-- The `message_data` dict built by `TaskPublisher._delay_task`
(messaging.py:50-60); `taskset = none` models the `"taskset"` key being
absent from the dict. -/
structure MessageData where
  task : String
  id : String
  args : List String
  kwargs : List (String × String)
  retries : Nat
  eta : Option String
  taskset : Option String
deriving DecidableEq, Repr

/-- `datetime.isoformat` (messaging.py:48), modelled as a canonical injective
rendering of the timestamp. -/
def isoformat (t : Nat) : String := toString t

/-- `task_id = task_id or gen_unique_id()` (messaging.py:46): Python
truthiness, so a missing and an empty-string `task_id` both take the
generated id. -/
def resolve_task_id (gen : String) (tid0 : Option String) : String :=
  match tid0 with
  | none => gen
  | some s => if s = "" then gen else s

/-- `if part_of_set: message_data["taskset"] = part_of_set`
(messaging.py:59-60): Python truthiness, so an empty-string taskset id is
not embedded. -/
def resolve_taskset (pset : Option String) : Option String :=
  match pset with
  | none => none
  | some s => if s = "" then none else some s

/-- The `message_data` value of messaging.py:50-60, including the
`task_args or []` / `task_kwargs or {}` defaults and
`eta = eta and eta.isoformat()`. -/
def build_message (gen task_name : String) (tid0 pset : Option String)
    (task_args : Option (List String))
    (task_kwargs : Option (List (String × String)))
    (eta0 : Option Nat) (retries : Nat) : MessageData :=
  { task := task_name
    id := resolve_task_id gen tid0
    args := task_args.getD []
    kwargs := task_kwargs.getD []
    retries := retries
    eta := eta0.map isoformat
    taskset := resolve_taskset pset }

/-- Observable actions of `_delay_task`, in program order: the transport
`send` (messaging.py:62) and the `task_sent` signal dispatch
(messaging.py:63). -/
inductive PubEvent where
  | sendMsg : MessageData → PubEvent
  | taskSent : MessageData → PubEvent
deriving DecidableEq, Repr

/-- `TaskPublisher._delay_task` (messaging.py:42-65). `gen` is the value
`gen_unique_id()` returns for this call (`celery.utils`, outside the
snippet); `send` is the transport boundary, which either succeeds or raises
a transport error; `notify` is the `task_sent` signal dispatch. Modelled
from the spec: `celery.signals` is not part of the snippet, and the spec
fixes the task-sent notification to be best-effort, unable to fail the
publish, so the dispatch outcome is ignored. Returns the event trace in
program order together with the returned `task_id` or the propagated
transport error. -/
def delay_task_core (gen : String)
    (send notify : MessageData → Except TransportError Unit)
    (task_name : String) (tid0 pset : Option String)
    (task_args : Option (List String))
    (task_kwargs : Option (List (String × String)))
    (eta0 : Option Nat) (retries : Nat) :
    List PubEvent × Except TransportError String :=
  let msg := build_message gen task_name tid0 pset task_args task_kwargs
    eta0 retries
  match send msg with
  | Except.error e => ([PubEvent.sendMsg msg], Except.error e)
  | Except.ok _ =>
    let _ := notify msg
    ([PubEvent.sendMsg msg, PubEvent.taskSent msg], Except.ok msg.id)

/-- `TaskPublisher.delay_task` (messaging.py:30-33): `_delay_task` with no
`part_of_set`. -/
def delay_task (gen : String)
    (send notify : MessageData → Except TransportError Unit)
    (task_name : String) (task_args : Option (List String))
    (task_kwargs : Option (List (String × String)))
    (tid0 : Option String) (eta0 : Option Nat) (retries : Nat) :
    List PubEvent × Except TransportError String :=
  delay_task_core gen send notify task_name tid0 none task_args task_kwargs
    eta0 retries

/-- `TaskPublisher.delay_task_in_set` (messaging.py:35-40): `_delay_task`
with `part_of_set := taskset_id`. -/
def delay_task_in_set (gen : String)
    (send notify : MessageData → Except TransportError Unit)
    (taskset_id task_name : String) (task_args : Option (List String))
    (task_kwargs : Option (List (String × String)))
    (tid0 : Option String) (eta0 : Option Nat) (retries : Nat) :
    List PubEvent × Except TransportError String :=
  delay_task_core gen send notify task_name tid0 (some taskset_id) task_args
    task_kwargs eta0 retries

/-- A transport whose `send` always succeeds. -/
def sendAlwaysOk : MessageData → Except TransportError Unit :=
  fun _ => Except.ok ()

/-- A transport whose `send` always raises. -/
def sendAlwaysFail : MessageData → Except TransportError Unit :=
  fun _ => Except.error { msg := "connection refused" }

/-- A signal dispatch that succeeds. -/
def notifyOk : MessageData → Except TransportError Unit :=
  fun _ => Except.ok ()

/-- A signal dispatch whose receiver raises. -/
def notifyFail : MessageData → Except TransportError Unit :=
  fun _ => Except.error { msg := "receiver failed" }

/-- Claim C4: with no `task_id` supplied and a succeeding transport, both
entry points use the freshly generated id: it is returned to the caller, it
is the `id` field of the single message handed to `send`, and it is carried
in exactly one task-sent notification (the trace is exactly one send of that
message followed by one notification of the same message). -/
theorem delay_task_fresh_id_spec (gen : String)
    (send notify : MessageData → Except TransportError Unit)
    (taskset_id task_name : String) (task_args : Option (List String))
    (task_kwargs : Option (List (String × String)))
    (eta0 : Option Nat) (retries : Nat)
    (hsend : ∀ m, send m = Except.ok ()) :
    (∃ m : MessageData, m.id = gen ∧
      delay_task gen send notify task_name task_args task_kwargs none
          eta0 retries
        = ([PubEvent.sendMsg m, PubEvent.taskSent m], Except.ok gen)) ∧
    (∃ m : MessageData, m.id = gen ∧
      delay_task_in_set gen send notify taskset_id task_name task_args
          task_kwargs none eta0 retries
        = ([PubEvent.sendMsg m, PubEvent.taskSent m], Except.ok gen)) := by
  constructor
  · refine ⟨build_message gen task_name none none task_args task_kwargs
      eta0 retries, ?_, ?_⟩
    · simp [build_message, resolve_task_id]
    · simp [delay_task, delay_task_core, hsend, build_message,
        resolve_task_id]
  · refine ⟨build_message gen task_name none (some taskset_id) task_args
      task_kwargs eta0 retries, ?_, ?_⟩
    · simp [build_message, resolve_task_id]
    · simp [delay_task_in_set, delay_task_core, hsend, build_message,
        resolve_task_id]

/-- Witness for C4: a concrete publish with a generated id through an
always-succeeding transport. -/
theorem delay_task_fresh_id_spec_witness :
    ∃ m : MessageData, m.id = "uuid-1" ∧
      delay_task "uuid-1" sendAlwaysOk notifyOk "tasks.add" (some ["2", "2"])
          none none none 0
        = ([PubEvent.sendMsg m, PubEvent.taskSent m], Except.ok "uuid-1") :=
  (delay_task_fresh_id_spec "uuid-1" sendAlwaysOk notifyOk "set1" "tasks.add"
    (some ["2", "2"]) none none 0 (fun _ => rfl)).1

/-- Claim C6: when the transport `send` raises, both entry points propagate
that exact error to the caller; the trace shows a single send attempt and
nothing else — no catch, no retry, no fallback. -/
theorem delay_task_transport_error_spec (gen : String)
    (send notify : MessageData → Except TransportError Unit)
    (taskset_id task_name : String) (tid0 : Option String)
    (task_args : Option (List String))
    (task_kwargs : Option (List (String × String)))
    (eta0 : Option Nat) (retries : Nat) (err : TransportError)
    (h1 : send (build_message gen task_name tid0 none task_args task_kwargs
      eta0 retries) = Except.error err)
    (h2 : send (build_message gen task_name tid0 (some taskset_id) task_args
      task_kwargs eta0 retries) = Except.error err) :
    delay_task gen send notify task_name task_args task_kwargs tid0
        eta0 retries
      = ([PubEvent.sendMsg (build_message gen task_name tid0 none task_args
          task_kwargs eta0 retries)], Except.error err) ∧
    delay_task_in_set gen send notify taskset_id task_name task_args
        task_kwargs tid0 eta0 retries
      = ([PubEvent.sendMsg (build_message gen task_name tid0 (some taskset_id)
          task_args task_kwargs eta0 retries)], Except.error err) := by
  constructor
  · simp [delay_task, delay_task_core, h1]
  · simp [delay_task_in_set, delay_task_core, h2]

/-- Witness for C6: a concrete publish through an always-raising transport. -/
theorem delay_task_transport_error_spec_witness :
    delay_task "uuid-1" sendAlwaysFail notifyOk "tasks.add" none none none
        none 0
      = ([PubEvent.sendMsg (build_message "uuid-1" "tasks.add" none none none
          none none 0)],
         Except.error { msg := "connection refused" }) :=
  (delay_task_transport_error_spec "uuid-1" sendAlwaysFail notifyOk "set1"
    "tasks.add" none none none none 0 { msg := "connection refused" }
    rfl rfl).1

/-- Claim C7: the outcome of the task-sent notification dispatch never
changes the result of a publish, and after a successful transport send the
caller receives the task id whatever the notification dispatch does. -/
theorem delay_task_notify_error_harmless (gen : String)
    (send n1 n2 : MessageData → Except TransportError Unit)
    (taskset_id task_name : String) (tid0 : Option String)
    (task_args : Option (List String))
    (task_kwargs : Option (List (String × String)))
    (eta0 : Option Nat) (retries : Nat) :
    delay_task gen send n1 task_name task_args task_kwargs tid0 eta0 retries
      = delay_task gen send n2 task_name task_args task_kwargs tid0
          eta0 retries ∧
    delay_task_in_set gen send n1 taskset_id task_name task_args task_kwargs
        tid0 eta0 retries
      = delay_task_in_set gen send n2 taskset_id task_name task_args
          task_kwargs tid0 eta0 retries ∧
    (send (build_message gen task_name tid0 none task_args task_kwargs eta0
        retries) = Except.ok () →
      (delay_task gen send n1 task_name task_args task_kwargs tid0 eta0
        retries).2 = Except.ok (resolve_task_id gen tid0)) ∧
    (send (build_message gen task_name tid0 (some taskset_id) task_args
        task_kwargs eta0 retries) = Except.ok () →
      (delay_task_in_set gen send n1 taskset_id task_name task_args
        task_kwargs tid0 eta0 retries).2
        = Except.ok (resolve_task_id gen tid0)) := by
  refine ⟨rfl, rfl, ?_, ?_⟩
  · intro h
    simp only [delay_task, delay_task_core, h]
    simp [build_message]
  · intro h
    simp only [delay_task_in_set, delay_task_core, h]
    simp [build_message]

/-- Witness for C7: a raising notification receiver; the caller still gets
the task id. -/
theorem delay_task_notify_error_harmless_witness :
    delay_task "uuid-1" sendAlwaysOk notifyFail "tasks.add" none none none
        none 0
      = delay_task "uuid-1" sendAlwaysOk notifyOk "tasks.add" none none none
          none 0 ∧
    (delay_task "uuid-1" sendAlwaysOk notifyFail "tasks.add" none none none
        none 0).2 = Except.ok "uuid-1" := by
  have h := delay_task_notify_error_harmless "uuid-1" sendAlwaysOk notifyFail
    notifyOk "set1" "tasks.add" none none none none 0
  exact ⟨h.1, h.2.2.1 rfl⟩

/-- Counterexample to C9 as stated, at two concrete inputs: (a) a
`delay_task_in_set` call given the taskset id `""` publishes a message whose
`taskset` field is absent — the `if part_of_set:` truthiness test at
messaging.py:59 drops falsy taskset ids; (b) two publishes into the same
taskset `"set1"` that both supply the task id `"x"` publish messages with
equal task ids even though the id generator yielded the distinct values
`"u1"` and `"u2"` for the two calls — a supplied task id bypasses the
generator, so generator distinctness does not make the task ids distinct. -/
theorem delay_task_in_set_empty_taskset_counterexample :
    ((build_message "gid" "tname" none (some "") none none none 0).taskset
        = none ∧
     delay_task_in_set "gid" sendAlwaysOk notifyOk "" "tname" none none none
        none 0
      = ([PubEvent.sendMsg (build_message "gid" "tname" none (some "") none
          none none 0),
          PubEvent.taskSent (build_message "gid" "tname" none (some "") none
          none none 0)],
         Except.ok "gid")) ∧
    ((build_message "u1" "ta" (some "x") (some "set1") none none none 0).id
        = "x" ∧
     (build_message "u2" "tb" (some "x") (some "set1") none none none 0).id
        = "x" ∧
     delay_task_in_set "u1" sendAlwaysOk notifyOk "set1" "ta" none none
        (some "x") none 0
      = ([PubEvent.sendMsg (build_message "u1" "ta" (some "x") (some "set1")
          none none none 0),
          PubEvent.taskSent (build_message "u1" "ta" (some "x") (some "set1")
          none none none 0)],
         Except.ok "x") ∧
     delay_task_in_set "u2" sendAlwaysOk notifyOk "set1" "tb" none none
        (some "x") none 0
      = ([PubEvent.sendMsg (build_message "u2" "tb" (some "x") (some "set1")
          none none none 0),
          PubEvent.taskSent (build_message "u2" "tb" (some "x") (some "set1")
          none none none 0)],
         Except.ok "x") ∧
     ("u1" : String) ≠ "u2") := by
  exact ⟨⟨rfl, rfl⟩, rfl, rfl, rfl, rfl, by decide⟩

/-- Claim C9, amended: every `delay_task_in_set` call with a non-empty
`taskset_id` — whether or not a `task_id` is supplied — publishes a message
embedding that taskset id, so any two publishes with the same non-empty
`taskset_id` carry the identical taskset identifier; each publish's task id
is the supplied truthy `task_id` if one is given, otherwise the generator's
value; and when neither call supplies a truthy `task_id`, the two task ids
are distinct whenever the id generator yielded distinct values for the two
calls. -/
theorem delay_task_in_set_taskset_spec (g1 g2 : String)
    (send notify : MessageData → Except TransportError Unit)
    (taskset_id name1 name2 : String) (tid1 tid2 : Option String)
    (targs1 targs2 : Option (List String))
    (tkw1 tkw2 : Option (List (String × String)))
    (eta1 eta2 : Option Nat) (r1 r2 : Nat)
    (hts : taskset_id ≠ "")
    (hsend : ∀ m, send m = Except.ok ()) :
    ∃ m1 m2 : MessageData,
      delay_task_in_set g1 send notify taskset_id name1 targs1 tkw1 tid1
          eta1 r1
        = ([PubEvent.sendMsg m1, PubEvent.taskSent m1],
           Except.ok (resolve_task_id g1 tid1)) ∧
      delay_task_in_set g2 send notify taskset_id name2 targs2 tkw2 tid2
          eta2 r2
        = ([PubEvent.sendMsg m2, PubEvent.taskSent m2],
           Except.ok (resolve_task_id g2 tid2)) ∧
      m1.taskset = some taskset_id ∧ m2.taskset = some taskset_id ∧
      m1.id = resolve_task_id g1 tid1 ∧ m2.id = resolve_task_id g2 tid2 ∧
      ((tid1 = none ∨ tid1 = some "") → (tid2 = none ∨ tid2 = some "") →
        g1 ≠ g2 → m1.id ≠ m2.id) := by
  refine ⟨build_message g1 name1 tid1 (some taskset_id) targs1 tkw1 eta1 r1,
    build_message g2 name2 tid2 (some taskset_id) targs2 tkw2 eta2 r2,
    ?_, ?_, ?_, ?_, ?_, ?_, ?_⟩
  · simp [delay_task_in_set, delay_task_core, hsend, build_message]
  · simp [delay_task_in_set, delay_task_core, hsend, build_message]
  · simp [build_message, resolve_taskset, hts]
  · simp [build_message, resolve_taskset, hts]
  · simp [build_message]
  · simp [build_message]
  · rintro (h1 | h1) (h2 | h2) hgen <;>
      simp [build_message, resolve_task_id, h1, h2, hgen]

/-- Witness for the amended C9: two concrete publishes into taskset
`"set1"` with no supplied task id and distinct generator values. -/
theorem delay_task_in_set_taskset_spec_witness :
    ∃ m1 m2 : MessageData,
      delay_task_in_set "u1" sendAlwaysOk notifyOk "set1" "tasks.a" none none
          none none 0
        = ([PubEvent.sendMsg m1, PubEvent.taskSent m1], Except.ok "u1") ∧
      delay_task_in_set "u2" sendAlwaysOk notifyOk "set1" "tasks.b" none none
          none none 0
        = ([PubEvent.sendMsg m2, PubEvent.taskSent m2], Except.ok "u2") ∧
      m1.taskset = some "set1" ∧ m2.taskset = some "set1" ∧
      m1.id = "u1" ∧ m2.id = "u2" ∧ m1.id ≠ m2.id := by
  obtain ⟨m1, m2, h1, h2, h3, h4, h5, h6, h7⟩ :=
    delay_task_in_set_taskset_spec "u1" "u2" sendAlwaysOk notifyOk "set1"
      "tasks.a" "tasks.b" none none none none none none none none 0 0
      (by decide) (fun _ => rfl)
  exact ⟨m1, m2, h1, h2, h3, h4, h5, h6,
    h7 (Or.inl rfl) (Or.inl rfl) (by decide)⟩

/-- Claim C10: when the transport `send` raises, the publish has no
observable partial effect at this layer: the trace contains no task-sent
notification, and the caller receives no task id (the error propagates
before the notification step). -/
theorem delay_task_no_partial_effect_on_send_error (gen : String)
    (send notify : MessageData → Except TransportError Unit)
    (taskset_id task_name : String) (tid0 : Option String)
    (task_args : Option (List String))
    (task_kwargs : Option (List (String × String)))
    (eta0 : Option Nat) (retries : Nat) (err : TransportError)
    (h1 : send (build_message gen task_name tid0 none task_args task_kwargs
      eta0 retries) = Except.error err)
    (h2 : send (build_message gen task_name tid0 (some taskset_id) task_args
      task_kwargs eta0 retries) = Except.error err) :
    (∀ m, PubEvent.taskSent m ∉ (delay_task gen send notify task_name
      task_args task_kwargs tid0 eta0 retries).1) ∧
    (∀ tid, (delay_task gen send notify task_name task_args task_kwargs tid0
      eta0 retries).2 ≠ Except.ok tid) ∧
    (∀ m, PubEvent.taskSent m ∉ (delay_task_in_set gen send notify taskset_id
      task_name task_args task_kwargs tid0 eta0 retries).1) ∧
    (∀ tid, (delay_task_in_set gen send notify taskset_id task_name task_args
      task_kwargs tid0 eta0 retries).2 ≠ Except.ok tid) := by
  refine ⟨?_, ?_, ?_, ?_⟩
  · intro m
    simp [delay_task, delay_task_core, h1]
  · intro tid
    simp [delay_task, delay_task_core, h1]
  · intro m
    simp [delay_task_in_set, delay_task_core, h2]
  · intro tid
    simp [delay_task_in_set, delay_task_core, h2]

/-- Witness for C10: a concrete failing publish emits no notification and
returns no id. -/
theorem delay_task_no_partial_effect_on_send_error_witness :
    (∀ m, PubEvent.taskSent m ∉ (delay_task "uuid-1" sendAlwaysFail notifyOk
      "tasks.add" none none none none 0).1) ∧
    (∀ tid, (delay_task "uuid-1" sendAlwaysFail notifyOk "tasks.add" none
      none none none 0).2 ≠ Except.ok tid) := by
  have h := delay_task_no_partial_effect_on_send_error "uuid-1"
    sendAlwaysFail notifyOk "set1" "tasks.add" none none none none 0
    { msg := "connection refused" } rfl rfl
  exact ⟨h.1, h.2.1⟩

/-- The loop guard of `BackgroundProcess` (controllers.py:23): a class
attribute that is never reassigned, so the `while` condition is always true;
the loop ends only through `stop()`/`terminate()` (an external hard kill) or
an exception escaping `on_iteration`. -/
def loop_guard : Bool := true

/-- `BackgroundProcess.run` (controllers.py:29-36) observed for at most
`fuel` iterations: `while is_infinite: self.on_iteration()`, with no
exception handling around the body. The body is a state transformer that
either returns the next state or raises. Returns how many `on_iteration`
calls ran together with the state after the observed iterations or the
first escaping error. -/
def background_run {σ ε : Type} (body : σ → Except ε σ) :
    Nat → σ → Nat × Except ε σ
  | 0, s => (0, Except.ok s)
  | Nat.succ n, s =>
    if loop_guard then
      match body s with
      | Except.error e => (1, Except.error e)
      | Except.ok s2 =>
        let r := background_run body n s2
        (r.1 + 1, r.2)
    else (0, Except.ok s)

/-- Claim C8: the run loop executes `on_iteration` repeatedly while the
guard holds; an error raised inside an `on_iteration` call is not caught by
the base loop — it propagates as the result, and no further iteration runs
(exactly one call was made in that observation window). -/
theorem background_run_spec {σ ε : Type} (body : σ → Except ε σ) (n : Nat)
    (s : σ) :
    (∀ e, body s = Except.error e →
      background_run body (n + 1) s = (1, Except.error e)) ∧
    (∀ s2, body s = Except.ok s2 →
      background_run body (n + 1) s =
        ((background_run body n s2).1 + 1, (background_run body n s2).2)) := by
  constructor
  · intro e he
    simp [background_run, loop_guard, he]
  · intro s2 hs
    simp [background_run, loop_guard, hs]

/-- A loop body that succeeds on state 0 and raises on any other state. -/
def stepOnceThenRaise : Nat → Except String Nat :=
  fun k => if k = 0 then Except.ok 1 else Except.error "late"

/-- Witness for C8: the body raises on state 1, so the run with plenty of
fuel left makes exactly one call and surfaces the error. -/
theorem background_run_spec_witness :
    background_run stepOnceThenRaise 4 1 = (1, Except.error "late") :=
  (background_run_spec stepOnceThenRaise 3 1).1 "late" rfl

end Celery
